import Mathlib

/-!
Shallow embedding of `fancontrold` (src/fancontrold/src/main.rs): a thermal
control loop that samples CPU temperature, drives a fan pin with a
two-threshold hysteresis rule, and debounces overheat notifications.

Modelling conventions:
* Rust `f32` values are modelled by the type `F` below: `nan`, signed
  infinities, and finite values carried as exact rationals.  IEEE comparison
  semantics are kept (every comparison involving `nan` is false); rounding of
  finite arithmetic is not modelled, which is exact on all values the
  claims exercise.
* The sensor text is modelled at character granularity (`List Char`); the
  sensor protocol is ASCII, where Rust's byte indices and character indices
  coincide.
* A Rust panic (out-of-range string slice) is modelled by `Option.none`.
-/

namespace FanControld

/-- Model of Rust `f32`: `nan`, infinities (`inf true` is negative infinity),
and finite values as exact rationals. -/
inductive F where
  | nan : F
  | inf : Bool → F
  | fin : ℚ → F
deriving DecidableEq

/-- IEEE `<` on the float model: any comparison with `nan` is false. -/
def F.lt : F → F → Bool
  | .nan, _ => false
  | .fin a, .fin b => decide (a < b)
  | .fin _, .inf n => !n
  | .inf n, .fin _ => n
  | .inf n1, .inf n2 => n1 && !n2
  | _, .nan => false

/-- IEEE `<=` on the float model: any comparison with `nan` is false. -/
def F.le : F → F → Bool
  | .nan, _ => false
  | .fin a, .fin b => decide (a ≤ b)
  | .fin _, .inf n => !n
  | .inf n, .fin _ => n
  | .inf n1, .inf n2 => n1 || !n2
  | _, .nan => false

/-- IEEE `>=`, as used by `off_threshold >= on_threshold` in the source. -/
def F.ge (a b : F) : Bool := F.le b a

/-- IEEE subtraction on the float model (`nan` propagates; `inf - inf` of the
same sign is `nan`). -/
def F.sub : F → F → F
  | .nan, _ => .nan
  | .fin a, .fin b => .fin (a - b)
  | .fin _, .inf n => .inf (!n)
  | .inf n, .fin _ => .inf n
  | .inf n1, .inf n2 => if n1 = n2 then .nan else .inf n1
  | _, .nan => .nan

/-- IEEE absolute value on the float model. -/
def F.abs : F → F
  | .nan => .nan
  | .inf _ => .inf false
  | .fin a => .fin |a|

/-- GPIO output level of the fan pin (rppal `OutputPin`): `Low` means the fan
is off, `High` means it is on. -/
inductive Level where
  | Low : Level
  | High : Level
deriving DecidableEq

/-- Runtime configuration, from the `Config` struct of the source.  `gpio_pin`
is a `u8` and `interval` a `u64` in the source, both modelled as `ℕ` (the step
logic only tests `interval` against 0 and replaces it by 15). -/
structure Config where
  gpio_pin : ℕ
  interval : ℕ
  on_threshold : F
  off_threshold : F
deriving DecidableEq

/-- The `Default` impl for `Config` in the source. -/
def Config.default : Config :=
  { gpio_pin := 17, interval := 15, on_threshold := .fin 60, off_threshold := .fin 50 }

/-- The `ConfigError` enum of the source.  `ConfyError` wraps a failure of the
external `confy` loader and is never produced by `Config::validated`. -/
inductive ConfigError where
  | InvalidThresholdRange (off_threshold on_threshold : F)
  | ConfyError (msg : String)
deriving DecidableEq

/-- `Config::validated`: replace a zero interval by the default 15, then
reject the config when `off_threshold >= on_threshold` (IEEE comparison). -/
def Config.validated (c : Config) : Except ConfigError Config :=
  let c := if c.interval == 0 then { c with interval := Config.default.interval } else c
  if F.ge c.off_threshold c.on_threshold then
    .error (.InvalidThresholdRange c.off_threshold c.on_threshold)
  else
    .ok c

/-- The `ReadTempError` enum of the source.  `CommandOutputError` wraps an I/O
failure of the external `vcgencmd` invocation (carried here as a message);
`ParseError` carries the raw sensor text. -/
inductive ReadTempError where
  | CommandOutputError (msg : String)
  | ParseError (raw : List Char)
deriving DecidableEq

/-- Numeric value of an ASCII digit character. -/
def digVal (c : Char) : ℕ := c.toNat - 48

/-- Value of a run of ASCII digits read in base 10. -/
def natOfDigits (l : List Char) : ℕ := l.foldl (fun a c => 10 * a + digVal c) 0

/-- Strip an optional leading ASCII sign; `true` means negative. -/
def splitSign : List Char → Bool × List Char
  | '-' :: r => (true, r)
  | '+' :: r => (false, r)
  | l => (false, l)

/-- Parse the optional exponent part of a Rust float literal (`e`/`E`, an
optional sign, then at least one digit, consuming the whole remainder),
applied to the mantissa value `m`. -/
def parseExpPart (m : ℚ) (l : List Char) : Option ℚ :=
  match l with
  | [] => some m
  | c :: r =>
    if c = 'e' ∨ c = 'E' then
      let (eneg, r2) := splitSign r
      let digs := r2.takeWhile Char.isDigit
      let rest := r2.dropWhile Char.isDigit
      if digs = [] ∨ rest ≠ [] then none
      else some (if eneg then m / 10 ^ natOfDigits digs else m * 10 ^ natOfDigits digs)
    else none

/-- Parse the number form of a Rust float literal: digits, an optional point
with further digits (at least one digit in total before the exponent), and an
optional exponent. -/
def parseNumber (l : List Char) : Option ℚ :=
  let intDigs := l.takeWhile Char.isDigit
  let rest := l.dropWhile Char.isDigit
  match rest with
  | '.' :: r2 =>
    let fracDigs := r2.takeWhile Char.isDigit
    let rest2 := r2.dropWhile Char.isDigit
    if intDigs = [] ∧ fracDigs = [] then none
    else
      parseExpPart
        ((natOfDigits intDigs : ℚ) + (natOfDigits fracDigs : ℚ) / 10 ^ fracDigs.length)
        rest2
  | _ =>
    if intDigs = [] then none else parseExpPart (natOfDigits intDigs : ℚ) rest

/-- Model of Rust `f32::from_str` (the `temp_str.parse()` call): an optional
sign, then case-insensitively `inf`, `infinity` or `nan`, or a decimal number
with optional exponent.  Finite values are kept exact. -/
def parseFloat (l : List Char) : Option F :=
  let (neg, r) := splitSign l
  let low := r.map Char.toLower
  if low = "inf".data ∨ low = "infinity".data then some (.inf neg)
  else if low = "nan".data then some .nan
  else (parseNumber r).map fun q => .fin (if neg then -q else q)

/-- The 5-character prefix `temp=` expected by `read_temperature`. -/
def tempPre : List Char := "temp=".data

/-- The 3-character expected trailing text: an ASCII apostrophe (code 39),
`C`, and a newline. -/
def tempSuf : List Char := [Char.ofNat 39, 'C', '\n']

/-- The slice-and-parse stage of `read_temperature`, applied to the sensor
command's output text.  The source takes the byte slice
from index 5 (the length of `temp=`) to `output.len() - 3` and parses it as a
float; when the slice bounds are invalid (any output shorter than 8, where
the unsigned subtraction underflows or the start exceeds the end) the Rust
program panics, modelled here by `none`. -/
def parseTemperature (output : List Char) : Option (Except ReadTempError F) :=
  if 8 ≤ output.length then
    let temp_str := (output.drop 5).take (output.length - 8)
    some
      (match parseFloat temp_str with
        | some v => .ok v
        | none => .error (.ParseError output))
  else none

/-- `read_temperature`, with the external command invocation made explicit:
the argument is the outcome of running `vcgencmd measure_temp` (an I/O error
message, or the output text).  An I/O failure is wrapped as
`CommandOutputError` by the `?` operator; otherwise the output is sliced and
parsed. -/
def read_temperature (raw : Except String (List Char)) : Option (Except ReadTempError F) :=
  match raw with
  | .error e => some (.error (.CommandOutputError e))
  | .ok output => parseTemperature output

/-- One step of the hysteresis branch of the main loop: from the pin's
currently driven level and the reading `t`, return the new driven level and
whether a write was issued.  `F.lt on t` models `temp > on_threshold`. -/
def hysteresis (on_threshold off_threshold : F) (level : Level) (t : F) : Level × Bool :=
  if level == .Low && F.lt on_threshold t then (.High, true)
  else if level == .High && F.lt t off_threshold then (.Low, true)
  else (level, false)

/-- Driven levels after each reading of a run of the hysteresis branch. -/
def runHysteresis (on_threshold off_threshold : F) (level : Level) : List F → List Level
  | [] => []
  | t :: ts =>
    let l := (hysteresis on_threshold off_threshold level t).1
    l :: runHysteresis on_threshold off_threshold l ts

/-- One step of the `do_if_overheat_change_exceeds_value` closure: from the
captured `last_overheat_amount` and the reading `temp`, return the updated
`last_overheat_amount` and the temperature passed to the notification
callback, if it was invoked. -/
def debounce (on_threshold : F) (last : Option F) (temp max_change : F) : Option F × Option F :=
  if F.lt temp on_threshold then (none, none)
  else
    let overheat_amount := F.sub temp on_threshold
    let overheat_change := last.map fun v => F.abs (F.sub v overheat_amount)
    let exceeded_max_change := (overheat_change.filter fun v => F.le v max_change).isNone
    if exceeded_max_change then (some overheat_amount, some temp) else (last, none)

/-- Emitted notification temperatures after each reading of a run of the
debouncer. -/
def runDebounce (on_threshold max_change : F) (last : Option F) : List F → List (Option F)
  | [] => []
  | t :: ts =>
    let r := debounce on_threshold last t max_change
    r.2 :: runDebounce on_threshold max_change r.1 ts

/-- The mutable state of the main loop: the fan pin's driven level and the
debouncer's captured `last_overheat_amount`. -/
structure LoopState where
  level : Level
  last : Option F
deriving DecidableEq

/-- Outcome of one loop iteration: the reading failed (and the error
propagates out of the loop by `?`), or the iteration ran, recording the level
written to the pin (if any) and the overheat notification (if any). -/
inductive TickResult where
  | failed (e : ReadTempError)
  | stepped (wrote : Option Level) (alert : Option F)
deriving DecidableEq

/-- The overheat notification carried by a tick outcome, if any. -/
def tickAlert : TickResult → Option F
  | .failed _ => none
  | .stepped _ a => a

/-- One iteration of the main loop body, with the obtained reading made
explicit.  On a failed reading the `?` operator propagates the error before
any state is touched; otherwise the hysteresis branch runs, then the
debouncer with `max_change = 5.0`. -/
def tickStep (on_threshold off_threshold : F) (s : LoopState) (reading : Except ReadTempError F) :
    LoopState × TickResult :=
  match reading with
  | .error e => (s, .failed e)
  | .ok t =>
    let h := hysteresis on_threshold off_threshold s.level t
    let d := debounce on_threshold s.last t (.fin 5)
    (⟨h.1, d.1⟩, .stepped (if h.2 then some h.1 else none) d.2)

/-! ## Helper lemmas -/

/-- Evaluation helper: parsing the text `42.8` yields the rational 42.8. -/
theorem parseFloat_428 : parseFloat ("42.8".data) = some (.fin (42.8 : ℚ)) := by
  have h : parseFloat ("42.8".data) =
      some (.fin ((natOfDigits ['4', '2'] : ℚ) + (natOfDigits ['8'] : ℚ) / 10 ^ 1)) := rfl
  have h42 : natOfDigits ['4', '2'] = 42 := rfl
  have h8 : natOfDigits ['8'] = 8 := rfl
  rw [h, h42, h8]
  norm_num

/-- Closed form of `Config.validated`: an `InvalidThresholdRange` error when
`off_threshold >= on_threshold`, otherwise the config with only a zero
interval replaced by 15. -/
theorem validated_eq (c : Config) :
    c.validated =
      if F.ge c.off_threshold c.on_threshold = true then
        .error (.InvalidThresholdRange c.off_threshold c.on_threshold)
      else
        .ok ⟨c.gpio_pin, if c.interval = 0 then 15 else c.interval,
          c.on_threshold, c.off_threshold⟩ := by
  obtain ⟨g, i, onv, offv⟩ := c
  unfold Config.validated
  by_cases hi : i = 0 <;> by_cases hg : F.ge offv onv <;>
    simp [hi, hg, Config.default]

/-! ## Claim theorems -/

/-- C1: the claim states that for every raw sensor text whose interior is not
a valid float — including the 7-character input `garbage` — the parser
returns `ParseError` carrying the raw text and never panics.  The code
instead slices bytes `5..len-3`, which on `garbage` is the invalid range
`5..4`: a Rust slice panic (modelled by `none`), not a returned error. -/
theorem read_temperature_panics_on_garbage :
    read_temperature (.ok ("garbage".data)) = none := rfl

/-- C2: the hysteresis branch drives High from Low exactly on `t > on_threshold`,
drives Low from High exactly on `t < off_threshold`, issues no write and keeps
the level in every other case, and the reading sequence 65, 55, 65, 45, 65
from a fresh Low start with thresholds 60/50 yields On, On, On, Off, On. -/
theorem hysteresis_step_spec :
    (∀ (on_t off_t t : F), F.lt on_t t = true →
        hysteresis on_t off_t .Low t = (.High, true))
    ∧ (∀ (on_t off_t t : F), F.lt t off_t = true →
        hysteresis on_t off_t .High t = (.Low, true))
    ∧ (∀ (on_t off_t t : F) (l : Level),
        ¬(l = .Low ∧ F.lt on_t t = true) → ¬(l = .High ∧ F.lt t off_t = true) →
        hysteresis on_t off_t l t = (l, false))
    ∧ runHysteresis (.fin 60) (.fin 50) .Low [.fin 65, .fin 55, .fin 65, .fin 45, .fin 65] =
        [.High, .High, .High, .Low, .High] := by
  refine ⟨?_, ?_, ?_, by decide⟩
  · intro on_t off_t t h
    simp [hysteresis, h]
  · intro on_t off_t t h
    simp [hysteresis, h]
  · intro on_t off_t t l h1 h2
    cases l <;> simp_all [hysteresis]

theorem hysteresis_step_spec_witness :
    F.lt (.fin 60) (.fin 65) = true ∧
    hysteresis (.fin 60) (.fin 50) .Low (.fin 65) = (.High, true) ∧
    F.lt (.fin 45) (.fin 50) = true ∧
    hysteresis (.fin 60) (.fin 50) .High (.fin 45) = (.Low, true) ∧
    hysteresis (.fin 60) (.fin 50) .High (.fin 55) = (.High, false) :=
  ⟨by decide, hysteresis_step_spec.1 _ _ _ (by decide), by decide,
    hysteresis_step_spec.2.1 _ _ _ (by decide),
    hysteresis_step_spec.2.2.1 _ _ _ _ (by decide) (by decide)⟩

/-- C3: the debouncer clears its state and emits nothing below the threshold;
otherwise it emits and records the overheat amount exactly when no amount is
recorded or the recorded amount differs from the new one by more than
`max_change`, and the reading sequence 61, 62, 63, 69, 58, 70 with threshold
60 and `max_change` 5 emits exactly at 61, 69 and 70. -/
theorem debounce_step_spec :
    (∀ (on_t mc t : ℚ) (last : Option ℚ), t < on_t →
        debounce (.fin on_t) (last.map .fin) (.fin t) (.fin mc) = (none, none))
    ∧ (∀ (on_t mc t : ℚ), ¬t < on_t →
        debounce (.fin on_t) none (.fin t) (.fin mc) =
          (some (.fin (t - on_t)), some (.fin t)))
    ∧ (∀ (on_t mc t l : ℚ), ¬t < on_t → |l - (t - on_t)| > mc →
        debounce (.fin on_t) (some (.fin l)) (.fin t) (.fin mc) =
          (some (.fin (t - on_t)), some (.fin t)))
    ∧ (∀ (on_t mc t l : ℚ), ¬t < on_t → |l - (t - on_t)| ≤ mc →
        debounce (.fin on_t) (some (.fin l)) (.fin t) (.fin mc) =
          (some (.fin l), none))
    ∧ runDebounce (.fin 60) (.fin 5) none
        [.fin 61, .fin 62, .fin 63, .fin 69, .fin 58, .fin 70] =
        [some (.fin 61), none, none, some (.fin 69), none, some (.fin 70)] := by
  refine ⟨?_, ?_, ?_, ?_,
    by norm_num [runDebounce, debounce, F.lt, F.sub, F.abs, F.le, Option.filter]⟩
  · intro on_t mc t last h
    simp [debounce, F.lt, h]
  · intro on_t mc t h
    simp [debounce, F.lt, F.sub, h, Option.filter]
  · intro on_t mc t l h h2
    simp [debounce, F.lt, F.sub, F.abs, F.le, h, not_le.mpr h2, Option.filter]
  · intro on_t mc t l h h2
    simp [debounce, F.lt, F.sub, F.abs, F.le, h, h2, Option.filter]

theorem debounce_step_spec_witness :
    ((58 : ℚ) < 60) ∧
    debounce (.fin 60) (some (.fin 9)) (.fin 58) (.fin 5) = (none, none) ∧
    ¬((61 : ℚ) < 60) ∧
    debounce (.fin 60) none (.fin 61) (.fin 5) = (some (.fin (61 - 60)), some (.fin 61)) :=
  ⟨by decide, debounce_step_spec.1 60 5 58 (some 9) (by decide), by decide,
    debounce_step_spec.2.1 60 5 61 (by decide)⟩

/-- C4: on a tick whose reading failed (sensor I/O error or parse error), the
loop body leaves the driven level and the debouncer state exactly as they
were: the error propagates before either is touched. -/
theorem failed_tick_preserves_state (on_t off_t : F) (s : LoopState) (e : ReadTempError) :
    (tickStep on_t off_t s (.error e)).1.level = s.level ∧
    (tickStep on_t off_t s (.error e)).1.last = s.last ∧
    (tickStep on_t off_t s (.error e)).2 = .failed e :=
  ⟨rfl, rfl, rfl⟩

/-- C5: `Config::validated` fails with `InvalidThresholdRange` carrying the
two thresholds exactly when `off_threshold >= on_threshold` (IEEE comparison,
so equality is rejected too), and succeeds for every config whose finite
thresholds satisfy `off_threshold < on_threshold`. -/
theorem validated_threshold_check :
    (∀ c : Config,
        c.validated = .error (.InvalidThresholdRange c.off_threshold c.on_threshold) ↔
          F.ge c.off_threshold c.on_threshold = true)
    ∧ (∀ (c : Config) (a b : ℚ), c.off_threshold = .fin a → c.on_threshold = .fin b →
        a < b → ∃ r, c.validated = .ok r) := by
  constructor
  · intro c
    rw [validated_eq c]
    by_cases hg : F.ge c.off_threshold c.on_threshold <;> simp [hg]
  · intro c a b hoff hon hab
    have hg : F.ge c.off_threshold c.on_threshold = false := by
      rw [hoff, hon]
      simp [F.ge, F.le]
      exact hab
    rw [validated_eq c, hg]
    simp

theorem validated_threshold_check_witness :
    F.ge (.fin 60) (.fin 50) = true ∧
    Config.validated ⟨17, 15, .fin 50, .fin 60⟩ =
      .error (.InvalidThresholdRange (.fin 60) (.fin 50)) ∧
    ((50 : ℚ) < 60) ∧
    (∃ r, Config.validated ⟨17, 15, .fin 60, .fin 50⟩ = .ok r) :=
  ⟨by decide, (validated_threshold_check.1 ⟨17, 15, .fin 50, .fin 60⟩).mpr (by decide),
    by decide, validated_threshold_check.2 ⟨17, 15, .fin 60, .fin 50⟩ 50 60 rfl rfl (by decide)⟩

/-- C6: a configured interval of 0 (the only non-positive value of the
unsigned field) resolves to the default 15 during validation, and validation
never rejects a config because of its interval: the only error it produces is
`InvalidThresholdRange`. -/
theorem interval_default_fallback :
    (∀ c r : Config, c.validated = .ok r → c.interval = 0 → r.interval = 15)
    ∧ (∀ (c : Config) (e : ConfigError), c.validated = .error e →
        e = .InvalidThresholdRange c.off_threshold c.on_threshold) := by
  constructor
  · intro c r hok hi
    rw [validated_eq c] at hok
    split at hok
    · simp at hok
    · injection hok with h2
      subst h2
      simp [hi]
  · intro c e he
    rw [validated_eq c] at he
    split at he
    · injection he with h2
      exact h2.symm
    · simp at he

theorem interval_default_fallback_witness :
    Config.validated ⟨17, 0, .fin 60, .fin 50⟩ = .ok ⟨17, 15, .fin 60, .fin 50⟩ ∧
    ((17 : ℕ) = 17) ∧
    (⟨17, 15, .fin 60, .fin 50⟩ : Config).interval = 15 :=
  ⟨rfl, rfl,
    interval_default_fallback.1 ⟨17, 0, .fin 60, .fin 50⟩ ⟨17, 15, .fin 60, .fin 50⟩ rfl rfl⟩

/-- C7: for every well-formed sensor line `temp=<float>'C\n`, the parser
strips the 5-character head and the 3-character tail and returns the interior
parsed as a float. -/
theorem read_temperature_wellformed (f : List Char) (v : F)
    (h : parseFloat f = some v) :
    read_temperature (.ok (tempPre ++ (f ++ tempSuf))) = some (.ok v) := by
  have hd : (tempPre ++ (f ++ tempSuf)).drop 5 = f ++ tempSuf := rfl
  have hp : tempPre.length = 5 := rfl
  have hs : tempSuf.length = 3 := rfl
  have hlen : (tempPre ++ (f ++ tempSuf)).length = f.length + 8 := by
    simp [List.length_append, hp, hs]
    omega
  show parseTemperature (tempPre ++ (f ++ tempSuf)) = some (.ok v)
  unfold parseTemperature
  rw [hlen, hd]
  have h8 : f.length + 8 - 8 = f.length := by omega
  rw [h8, List.take_left]
  simp [h]

theorem read_temperature_wellformed_witness :
    parseFloat ("42.8".data) = some (.fin (42.8 : ℚ)) ∧
    read_temperature (.ok (tempPre ++ ("42.8".data ++ tempSuf))) =
      some (.ok (.fin (42.8 : ℚ))) :=
  ⟨parseFloat_428, read_temperature_wellformed ("42.8".data) (.fin (42.8 : ℚ)) parseFloat_428⟩

/-- C8: the debouncer is independent of the hysteresis controller: two ticks
that differ only in the pin's driven level produce the same updated
`last_overheat_amount` and the same notification decision. -/
theorem debouncer_independent_of_level (on_t off_t : F) (last : Option F) (t : F)
    (l1 l2 : Level) :
    (tickStep on_t off_t ⟨l1, last⟩ (.ok t)).1.last =
      (tickStep on_t off_t ⟨l2, last⟩ (.ok t)).1.last ∧
    tickAlert (tickStep on_t off_t ⟨l1, last⟩ (.ok t)).2 =
      tickAlert (tickStep on_t off_t ⟨l2, last⟩ (.ok t)).2 :=
  ⟨rfl, rfl⟩

/-- C9: on a `nan` reading both strict threshold comparisons are false, so the
hysteresis branch issues no write whatever the current level, while the
debouncer's change filter never suppresses: it records `nan` and emits a
notification carrying `nan`. -/
theorem nan_reading_behavior (on_t off_t mc : F) (l : Level) (last : Option F) :
    hysteresis on_t off_t l .nan = (l, false) ∧
    debounce on_t last .nan mc = (some .nan, some .nan) := by
  constructor
  · cases l <;> cases on_t <;> cases off_t <;> simp [hysteresis, F.lt]
  · cases last with
    | none => cases on_t <;> simp [debounce, F.lt, F.sub, Option.filter]
    | some v =>
      cases v <;> cases on_t <;>
        simp [debounce, F.lt, F.sub, F.abs, F.le, Option.filter]

/-- C10: validation modifies only the interval field: a successfully
validated config keeps `gpio_pin`, `on_threshold` and `off_threshold`
unchanged, and keeps `interval` unchanged unless it was 0, in which case it
becomes 15. -/
theorem validated_frame (c r : Config) (h : c.validated = .ok r) :
    r.gpio_pin = c.gpio_pin ∧ r.on_threshold = c.on_threshold ∧
      r.off_threshold = c.off_threshold ∧
      r.interval = if c.interval = 0 then 15 else c.interval := by
  rw [validated_eq c] at h
  split at h
  · simp at h
  · injection h with h2
    subst h2
    simp

theorem validated_frame_witness :
    Config.validated ⟨3, 7, .fin 60, .fin 50⟩ = .ok ⟨3, 7, .fin 60, .fin 50⟩ ∧
    ((3 : ℕ) = 3 ∧ F.fin 60 = F.fin 60 ∧ F.fin 50 = F.fin 50 ∧
      (7 : ℕ) = if (7 : ℕ) = 0 then 15 else 7) :=
  ⟨rfl, validated_frame ⟨3, 7, .fin 60, .fin 50⟩ ⟨3, 7, .fin 60, .fin 50⟩ rfl⟩

end FanControld
